import Mathlib

/-!
Verification of the listener state machine, LLM bridge and speech queue of
`desktop_assistant_vosk.py` (a wake-word desktop voice assistant).

The program is shallowly embedded: the external recognizer, audio stream and
wall clock are modelled as per-block oracle inputs (`BlockInput`), the mutable
session state of `VoiceAssistantApp` becomes `AppState`, and every observable
side effect (feeding the recognizer, resetting it, logging, speaking,
dispatching a command, status/button updates) becomes an `Event` in a trace.
Timestamps are integers standing for the floats returned by `time.time()`:
the control flow only compares a difference of two timestamps against the
timeout, so any linearly ordered time domain gives the same behaviour, and
the integers keep every concrete run kernel-computable.
-/

/-- Configuration constant `WAKE_WORD = "computer"`. -/
def WAKE_WORD : String := "computer"

/-- Configuration constant `COMMAND_TIMEOUT = 5.0` (seconds). -/
def COMMAND_TIMEOUT : ℤ := 5

/-- Configuration constant `LLM_MODEL = "llama3"`. -/
def LLM_MODEL : String := "llama3"

/-- Configuration constant `SAMPLERATE = 16000`. -/
def SAMPLERATE : Nat := 16000

/-- Configuration constant `BLOCKSIZE = 4000`. -/
def BLOCKSIZE : Nat := 4000

/-- A single ASCII apostrophe, built from its character code so the embedded
strings match the Python f-strings exactly. -/
def sQuote : String := String.mk [Char.ofNat 39]

/-- One PCM audio block (the int16 samples of one `stream.read`). -/
abbrev AudioBlock := List Int

/-- The mutable session state owned by the capture thread
(`is_listening`, `in_command_window`, `last_word_time`,
`command_audio_buffer` in `VoiceAssistantApp.__init__`). -/
structure AppState where
  is_listening : Bool
  in_command_window : Bool
  last_word_time : ℤ
  command_audio_buffer : List AudioBlock
deriving DecidableEq, Repr

/-- Observable side effects of the control logic. `log msg spoken` is
`log_message(msg, speak_message=spoken)` (append to the textbox, and enqueue
for speech when `spoken`); `speak` is a direct `self.speak`; `dispatch` is an
invocation of `process_command`; `feed` is `recognizer.AcceptWaveform`;
`reset` is `recognizer.Reset()`; `printMsg` is a console `print`. -/
inductive Event where
  | feed (a : AudioBlock)
  | reset
  | initRecognizer
  | closeStream
  | statusUpdate (text : String)
  | buttonText (text : String)
  | log (msg : String) (spoken : Bool)
  | speak (msg : String)
  | dispatch (text : String)
  | printMsg (msg : String)
deriving DecidableEq, Repr

/-- Oracle data for one iteration of the capture loop: the audio block read
from the stream, what the recognizer answered for this block
(`AcceptWaveform` result, `PartialResult` text, `Result` text), the text the
recognizer would extract after force-feeding the concatenated buffer on the
timeout path, and the value of `time.time()` during this iteration. -/
structure BlockInput where
  data : AudioBlock
  is_final : Bool
  partial_text : String
  resultText : String
  forcedResultText : String
  now : ℤ
deriving DecidableEq, Repr

/-- Helper for the substring test: does `needle` start at some position of
the list? -/
def containsAux (needle : List Char) : List Char → Bool
  | [] => needle.isEmpty
  | c :: cs => needle.isPrefixOf (c :: cs) || containsAux needle cs

/-- Python `needle in haystack` substring test. -/
def strContains (hay needle : String) : Bool :=
  containsAux needle.data hay.data

/-- Status text `f"Listening for '{WAKE_WORD}'..."`. -/
def waitingStatus : String := "Listening for " ++ sQuote ++ WAKE_WORD ++ sQuote ++ "..."

/-- Log text `f"'{WAKE_WORD}' detected."`. -/
def wakeDetectedMsg : String := sQuote ++ WAKE_WORD ++ sQuote ++ " detected."

/-- Log prefix of `f"> Query: {command_text}"`. -/
def queryTag : String := "> Query: "

/-- Log text of the timeout branch. -/
def timeoutMsg : String := "Timeout reached, processing command..."

/-- Spoken notice of the timeout branch when no transcript was extracted. -/
def couldNotUnderstandMsg : String := "I heard something, but could not understand."

/-- One iteration of the body of `main_listener_loop`'s `while` loop
(lines 113-152 of `desktop_assistant_vosk.py`), given the current session
state and the oracle data for this block.  Returns the new state and the
events emitted, in program order. -/
def listenerStep (s : AppState) (b : BlockInput) : AppState × List Event :=
  if s.in_command_window then
    -- self.command_audio_buffer.append(data)
    let buf := s.command_audio_buffer ++ [b.data]
    -- if partial_text: self.last_word_time = time.time()
    let lwt := if b.partial_text ≠ "" then b.now else s.last_word_time
    if b.is_final then
      let cmd := b.resultText
      if cmd ≠ "" then
        ({ s with command_audio_buffer := buf,
                  last_word_time := lwt,
                  in_command_window := false },
         [Event.feed b.data, Event.log (queryTag ++ cmd) false,
          Event.dispatch cmd, Event.statusUpdate waitingStatus])
      else
        ({ s with command_audio_buffer := buf,
                  last_word_time := lwt,
                  in_command_window := false },
         [Event.feed b.data, Event.statusUpdate waitingStatus])
    else if b.now - lwt > COMMAND_TIMEOUT then
      let cmd := b.forcedResultText
      ({ s with command_audio_buffer := [],
                last_word_time := lwt,
                in_command_window := false },
       [Event.feed b.data, Event.log timeoutMsg false,
        Event.feed buf.flatten] ++
       (if cmd ≠ "" then
          [Event.log (queryTag ++ cmd) false, Event.dispatch cmd]
        else
          [Event.log couldNotUnderstandMsg true]) ++
       [Event.statusUpdate waitingStatus])
    else
      ({ s with command_audio_buffer := buf, last_word_time := lwt },
       [Event.feed b.data])
  else
    -- Listening for wake word
    if strContains b.partial_text WAKE_WORD then
      ({ s with in_command_window := true,
                last_word_time := b.now,
                command_audio_buffer := [] },
       [Event.feed b.data, Event.statusUpdate "Speak your query now...",
        Event.log wakeDetectedMsg true, Event.reset])
    else
      (s, [Event.feed b.data])

/-- `stop_listening`: clear both flags, restore the button text, show Idle. -/
def stop_listening (s : AppState) : AppState × List Event :=
  ({ s with is_listening := false, in_command_window := false },
   [Event.buttonText "Start Listening", Event.statusUpdate "Idle"])

/-- The `while self.is_listening` loop over a finite trace of available
blocks; the stream is closed (`with` block exit) when the loop ends. -/
def listenerLoop (s : AppState) : List BlockInput → AppState × List Event
  | [] => (s, [Event.closeStream])
  | b :: rest =>
      if s.is_listening then
        let p := listenerStep s b
        let q := listenerLoop p.1 rest
        (q.1, p.2 ++ q.2)
      else (s, [Event.closeStream])

/-- Outcome of model / recognizer construction at session start. -/
inductive InitResult where
  | ok
  | failure (exnText : String)
deriving DecidableEq, Repr

/-- `main_listener_loop`: construct the model and recognizer (fatal to the
session on failure: log the error, `stop_listening`, return), otherwise show
the waiting status and run the capture loop. -/
def main_listener_loop (s : AppState) (init : InitResult)
    (bs : List BlockInput) : AppState × List Event :=
  match init with
  | .failure e =>
      let p := stop_listening s
      (p.1, [Event.log ("Initialization Error: " ++ e) true] ++ p.2)
  | .ok =>
      let p := listenerLoop s bs
      (p.1, [Event.initRecognizer, Event.statusUpdate waitingStatus] ++ p.2)

/-- The JSON body of the LLM POST request
(`{"model": LLM_MODEL, "prompt": prompt, "stream": False}`). -/
structure LLMPayload where
  model : String
  prompt : String
  stream : Bool
deriving DecidableEq, Repr

/-- The payload `query_llm` builds for a given prompt. -/
def llmPayload (prompt : String) : LLMPayload :=
  { model := LLM_MODEL, prompt := prompt, stream := false }

/-- Outcome of the HTTP POST to the LLM endpoint, as seen by `query_llm`:
a 2xx reply whose parsed JSON has the given optional `response` field; a 2xx
reply whose body fails to parse as JSON (`response.json()` raises); or a
`requests.exceptions.RequestException` — raised either by `post` itself
(transport error) or by `raise_for_status()` (non-2xx status) — carrying the
exception text. -/
inductive HttpOutcome where
  | ok (responseField : Option String)
  | okBadJson (exnText : String)
  | requestError (exnText : String)
deriving DecidableEq, Repr

/-- Head of the inline error string `f"Error connecting to LLM: {e}"`. -/
def llmErrHead : String := "Error connecting to LLM: "

/-- Fallback used when the JSON reply has no `response` field. -/
def noResponseFallback : String := "No response text found in LLM output."

/-- `query_llm`: log, update status, POST the payload; on success return the
`response` field (or the fallback), on a `RequestException` print and return
the inline error string.  `Except.error` models an exception escaping to the
caller (only possible from `response.json()`). -/
def query_llm (prompt : String) (http : LLMPayload → HttpOutcome) :
    Except String (String × List Event) :=
  let evs := [Event.log "Sending query to LLM..." false,
              Event.statusUpdate "Querying LLM..."]
  match http (llmPayload prompt) with
  | .ok field => .ok (field.getD noResponseFallback, evs)
  | .okBadJson e => .error e
  | .requestError e =>
      let msg := llmErrHead ++ e
      .ok (msg, evs ++ [Event.printMsg msg])

/-- `process_command`: forward the text to the LLM; if the returned string is
truthy (non-empty), log it without speaking and enqueue it for speech. -/
def process_command (text : String) (http : LLMPayload → HttpOutcome) :
    Except String (List Event) :=
  match query_llm text http with
  | .error e => .error e
  | .ok (response, evs) =>
      if response = "" then .ok evs
      else .ok (evs ++ [Event.log ("LLM Response: " ++ response) false,
                        Event.speak response])

/-- Audible events of the text-to-speech worker: utterance number `n` of the
queue starts playing / finishes playing (`engine.say` + `engine.runAndWait`
return only when playback is complete). -/
inductive SpeechEvent where
  | utterStart (n : Nat) (text : String)
  | utterEnd (n : Nat) (text : String)
deriving DecidableEq, Repr

/-- `_speaker_thread_worker`, processing the queued utterances in order
starting from utterance number `n`: pop one text, synchronously render and
play it to completion, loop. -/
def speakerWorkerFrom (n : Nat) : List String → List SpeechEvent
  | [] => []
  | t :: rest =>
      SpeechEvent.utterStart n t :: SpeechEvent.utterEnd n t ::
        speakerWorkerFrom (n + 1) rest

/-- The audible trace produced by draining the speech queue `q`. -/
def speakerTrace (q : List String) : List SpeechEvent :=
  speakerWorkerFrom 0 q

/-- The text of an utterance-start event, `none` otherwise. -/
def uttStartText : SpeechEvent → Option String
  | .utterStart _ t => some t
  | _ => none

/-- Concrete waiting-state session used to exercise the wake-word claim. -/
def c1s : AppState :=
  { is_listening := true, in_command_window := false,
    last_word_time := 0, command_audio_buffer := [[1, 2]] }

/-- Concrete block whose partial transcript contains the wake word. -/
def c1b : BlockInput :=
  { data := [3, 4], is_final := false, partial_text := "hey computer",
    resultText := "", forcedResultText := "", now := 7 }

/-- Concrete in-command state whose last word was heard at time 0. -/
def c2xs : AppState :=
  { is_listening := true, in_command_window := true,
    last_word_time := 0, command_audio_buffer := [[3]] }

/-- Concrete silent block arriving exactly `COMMAND_TIMEOUT` after the last
word. -/
def c2xb : BlockInput :=
  { data := [4], is_final := false, partial_text := "",
    resultText := "", forcedResultText := "", now := 5 }

/-- Concrete in-command state for the timeout-path witness. -/
def c2ws : AppState :=
  { is_listening := true, in_command_window := true,
    last_word_time := 0, command_audio_buffer := [[3]] }

/-- Concrete silent block arriving strictly after the timeout, from which the
recognizer extracts a forced transcript. -/
def c2wb : BlockInput :=
  { data := [4], is_final := false, partial_text := "",
    resultText := "", forcedResultText := "what time is it", now := 6 }

/-- Concrete in-command state for the final-transcript dispatch witness. -/
def c3s : AppState :=
  { is_listening := true, in_command_window := true,
    last_word_time := 2, command_audio_buffer := [[5]] }

/-- Concrete block on which the recognizer finalizes the simulated transcript
`"what time is it"`. -/
def c3b : BlockInput :=
  { data := [6], is_final := true, partial_text := "",
    resultText := "what time is it", forcedResultText := "", now := 3 }

/-- Concrete in-command state for the LLM error-handling witness. -/
def c4s : AppState :=
  { is_listening := true, in_command_window := true,
    last_word_time := 2, command_audio_buffer := [[5]] }

/-- Concrete finalizing block for the LLM error-handling witness. -/
def c4b : BlockInput :=
  { data := [6], is_final := true, partial_text := "",
    resultText := "what time is it", forcedResultText := "", now := 3 }

/-- Exception text of a simulated HTTP 500 reply. -/
def c4err : String := "500 Server Error"

/-- Concrete mid-command state on which stop is pressed. -/
def c7s : AppState :=
  { is_listening := true, in_command_window := true,
    last_word_time := 1, command_audio_buffer := [[8]] }

/-- Concrete block trace that would still be available after stopping. -/
def c7bs : List BlockInput :=
  [{ data := [9], is_final := false, partial_text := "computer",
     resultText := "", forcedResultText := "", now := 2 }]

/-- Concrete in-command state with an empty buffer, used against the
empty-final-transcript claim. -/
def c10xs : AppState :=
  { is_listening := true, in_command_window := true,
    last_word_time := 0, command_audio_buffer := [] }

/-- Concrete block on which the recognizer finalizes with empty text. -/
def c10xb : BlockInput :=
  { data := [7], is_final := true, partial_text := "",
    resultText := "", forcedResultText := "", now := 1 }

/-- Concrete in-command state for the empty-final-transcript witness. -/
def c10ws : AppState :=
  { is_listening := true, in_command_window := true,
    last_word_time := 0, command_audio_buffer := [[2]] }

/-- Concrete empty-final block for the empty-final-transcript witness. -/
def c10wb : BlockInput :=
  { data := [7], is_final := true, partial_text := "",
    resultText := "", forcedResultText := "", now := 1 }

/-! ## Helper lemmas -/

/-- A single capture-loop iteration never constructs a recognizer. -/
theorem listenerStep_no_initRecognizer (s : AppState) (b : BlockInput) :
    Event.initRecognizer ∉ (listenerStep s b).2 := by
  unfold listenerStep
  split_ifs <;> simp <;> split_ifs <;> simp

/-- The capture loop never constructs a recognizer. -/
theorem listenerLoop_no_initRecognizer (s : AppState) (bs : List BlockInput) :
    Event.initRecognizer ∉ (listenerLoop s bs).2 := by
  induction bs generalizing s with
  | nil => simp [listenerLoop]
  | cons b rest ih =>
      cases h : s.is_listening with
      | false => simp [listenerLoop, h]
      | true =>
          simp only [listenerLoop, h, if_true, List.mem_append]
          rintro (hmem | hmem)
          · exact listenerStep_no_initRecognizer s b hmem
          · exact ih (listenerStep s b).1 hmem

/-- The start events of the speech-queue trace list exactly the queued texts,
in order. -/
theorem speakerWorkerFrom_starts (n : Nat) (q : List String) :
    (speakerWorkerFrom n q).filterMap uttStartText = q := by
  induction q generalizing n with
  | nil => rfl
  | cons t rest ih => simp [speakerWorkerFrom, uttStartText, ih]

/-- Utterance `i` of the queue starts playing at trace position `2*i` and
finishes at position `2*i+1`. -/
theorem speakerWorkerFrom_getElem (n : Nat) (q : List String) (i : Nat)
    (h : i < q.length) :
    (speakerWorkerFrom n q)[2 * i]? =
      some (SpeechEvent.utterStart (n + i) (q.get ⟨i, h⟩))
  ∧ (speakerWorkerFrom n q)[2 * i + 1]? =
      some (SpeechEvent.utterEnd (n + i) (q.get ⟨i, h⟩)) := by
  induction q generalizing n i with
  | nil => exact absurd h (by simp)
  | cons t rest ih =>
      cases i with
      | zero => simp [speakerWorkerFrom]
      | succ k =>
          have h' : k < rest.length := Nat.lt_of_succ_lt_succ h
          have hk := ih (n + 1) k h'
          have e1 : 2 * (k + 1) = 2 * k + 1 + 1 := by ring
          have e2 : 2 * (k + 1) + 1 = (2 * k + 1) + 1 + 1 := by ring
          have eadd : n + 1 + k = n + (k + 1) := by omega
          refine ⟨?_, ?_⟩
          · rw [e1]
            simpa [speakerWorkerFrom, eadd] using hk.1
          · rw [e2]
            simpa [speakerWorkerFrom, eadd] using hk.2

/-! ## Claims -/

/-- C1: in the waiting state (`is_listening` true, `in_command_window`
false), a block whose partial transcript contains the wake word as a
substring makes the single transition to the command window: the command
audio buffer becomes empty, `last_word_time` becomes the current time, and
the recognizer is reset (exactly one `reset`, after this block's feed). -/
theorem wake_word_transition (s : AppState) (b : BlockInput)
    (_hl : s.is_listening = true) (hw : s.in_command_window = false)
    (hp : strContains b.partial_text WAKE_WORD = true) :
    listenerStep s b =
      ({ s with in_command_window := true,
                last_word_time := b.now,
                command_audio_buffer := [] },
       [Event.feed b.data, Event.statusUpdate "Speak your query now...",
        Event.log wakeDetectedMsg true, Event.reset]) := by
  simp [listenerStep, hw, hp]

/-- Witness for C1 at a concrete waiting state and a block whose partial
transcript is `"hey computer"`. -/
theorem wake_word_transition_witness :
    c1s.is_listening = true ∧ c1s.in_command_window = false ∧
    strContains c1b.partial_text WAKE_WORD = true ∧
    listenerStep c1s c1b =
      ({ c1s with in_command_window := true,
                  last_word_time := c1b.now,
                  command_audio_buffer := [] },
       [Event.feed c1b.data, Event.statusUpdate "Speak your query now...",
        Event.log wakeDetectedMsg true, Event.reset]) :=
  ⟨rfl, rfl, by decide, wake_word_transition c1s c1b rfl rfl (by decide)⟩

/-- C2 counterexample: with the last word at time 0 and a silent non-final
block arriving exactly `COMMAND_TIMEOUT` seconds later — so that no
non-empty partial text has arrived for at least `COMMAND_TIMEOUT` seconds —
the code does NOT force-finalize: the strict comparison
`time.time() - last_word_time > COMMAND_TIMEOUT` is false, the loop stays in
the command window, no timeout processing is logged and the buffer is not
cleared. -/
theorem timeout_boundary_counterexample :
    c2xs.in_command_window = true ∧ c2xb.is_final = false ∧
    c2xb.partial_text = "" ∧
    c2xb.now - c2xs.last_word_time ≥ COMMAND_TIMEOUT ∧
    (listenerStep c2xs c2xb).1.in_command_window = true ∧
    Event.log timeoutMsg false ∉ (listenerStep c2xs c2xb).2 ∧
    (listenerStep c2xs c2xb).1.command_audio_buffer ≠ [] :=
  ⟨rfl, rfl, rfl, by decide, by decide, by decide, by decide⟩

/-- C2 (amended: the elapsed time must strictly exceed `COMMAND_TIMEOUT`):
in the command window, when the recognizer did not finalize and no non-empty
partial text arrived for more than `COMMAND_TIMEOUT` seconds since
`last_word_time`, the loop concatenates the buffered blocks, force-feeds
them to the recognizer, dispatches the extracted transcript if non-empty,
emits the spoken could-not-understand notice if it is empty, clears the
buffer, and returns to the waiting state in either case. -/
theorem command_timeout_finalize (s : AppState) (b : BlockInput)
    (hc : s.in_command_window = true) (hf : b.is_final = false)
    (hp : b.partial_text = "")
    (ht : b.now - s.last_word_time > COMMAND_TIMEOUT) :
    listenerStep s b =
      ({ s with in_command_window := false, command_audio_buffer := [] },
       [Event.feed b.data, Event.log timeoutMsg false,
        Event.feed (s.command_audio_buffer ++ [b.data]).flatten] ++
       (if b.forcedResultText ≠ "" then
          [Event.log (queryTag ++ b.forcedResultText) false,
           Event.dispatch b.forcedResultText]
        else [Event.log couldNotUnderstandMsg true]) ++
       [Event.statusUpdate waitingStatus]) := by
  simp [listenerStep, hc, hf, hp, ht]

/-- Witness for the amended C2 at a concrete state, one second past the
timeout, with forced transcript `"what time is it"`. -/
theorem command_timeout_finalize_witness :
    c2ws.in_command_window = true ∧ c2wb.is_final = false ∧
    c2wb.partial_text = "" ∧
    c2wb.now - c2ws.last_word_time > COMMAND_TIMEOUT ∧
    listenerStep c2ws c2wb =
      ({ c2ws with in_command_window := false, command_audio_buffer := [] },
       [Event.feed c2wb.data, Event.log timeoutMsg false,
        Event.feed (c2ws.command_audio_buffer ++ [c2wb.data]).flatten] ++
       (if c2wb.forcedResultText ≠ "" then
          [Event.log (queryTag ++ c2wb.forcedResultText) false,
           Event.dispatch c2wb.forcedResultText]
        else [Event.log couldNotUnderstandMsg true]) ++
       [Event.statusUpdate waitingStatus]) :=
  ⟨rfl, rfl, rfl, by decide,
   command_timeout_finalize c2ws c2wb rfl rfl rfl (by decide)⟩

/-- C3: a non-empty final transcript reached in the command window is logged
as a query without being spoken back, dispatched to `process_command` with
exactly that string, and the LLM request payload's `prompt` field equals
that string verbatim. -/
theorem final_transcript_dispatch (s : AppState) (b : BlockInput)
    (hc : s.in_command_window = true) (hf : b.is_final = true)
    (hn : b.resultText ≠ "") :
    (listenerStep s b).2 =
      [Event.feed b.data, Event.log (queryTag ++ b.resultText) false,
       Event.dispatch b.resultText, Event.statusUpdate waitingStatus]
  ∧ (llmPayload b.resultText).prompt = b.resultText := by
  constructor
  · simp [listenerStep, hc, hf, hn]
  · rfl

/-- Witness for C3 with the simulated final transcript `"what time is it"`. -/
theorem final_transcript_dispatch_witness :
    c3s.in_command_window = true ∧ c3b.is_final = true ∧
    c3b.resultText ≠ "" ∧
    ((listenerStep c3s c3b).2 =
      [Event.feed c3b.data, Event.log (queryTag ++ c3b.resultText) false,
       Event.dispatch c3b.resultText, Event.statusUpdate waitingStatus]
     ∧ (llmPayload c3b.resultText).prompt = c3b.resultText) :=
  ⟨rfl, rfl, by decide,
   final_transcript_dispatch c3s c3b rfl rfl (by decide)⟩

/-- C4: when the HTTP POST ends in a `RequestException` (non-2xx status via
`raise_for_status`, or a transport error), `query_llm` returns normally —
no exception reaches its caller — with an inline error string containing the
exception text, after printing (logging) that string; and the capture-loop
iteration that dispatched the command still leaves the command window, so
the loop is back to waiting for the wake word. -/
theorem llm_error_inline (p e : String) (s : AppState) (b : BlockInput)
    (hc : s.in_command_window = true) (hf : b.is_final = true) :
    query_llm p (fun _ => HttpOutcome.requestError e) =
      Except.ok (llmErrHead ++ e,
        [Event.log "Sending query to LLM..." false,
         Event.statusUpdate "Querying LLM...",
         Event.printMsg (llmErrHead ++ e)])
  ∧ (∃ pre, llmErrHead ++ e = pre ++ e)
  ∧ (listenerStep s b).1.in_command_window = false := by
  refine ⟨rfl, ⟨llmErrHead, rfl⟩, ?_⟩
  by_cases hn : b.resultText = "" <;> simp [listenerStep, hc, hf, hn]

/-- Witness for C4 with a simulated HTTP 500 exception text. -/
theorem llm_error_inline_witness :
    c4s.in_command_window = true ∧ c4b.is_final = true ∧
    (query_llm "what time is it" (fun _ => HttpOutcome.requestError c4err) =
      Except.ok (llmErrHead ++ c4err,
        [Event.log "Sending query to LLM..." false,
         Event.statusUpdate "Querying LLM...",
         Event.printMsg (llmErrHead ++ c4err)])
     ∧ (∃ pre, llmErrHead ++ c4err = pre ++ c4err)
     ∧ (listenerStep c4s c4b).1.in_command_window = false) :=
  ⟨rfl, rfl,
   llm_error_inline "what time is it" c4err c4s c4b rfl rfl⟩

/-- C6: when model/recognizer construction raises at session start, the
error is reported in the log, the session is stopped (`is_listening` and
`in_command_window` become false, the button and status return to their idle
texts), and the listener function returns at once — no block is processed,
no recognizer exists, and no exception escapes (the embedding is a total
function). -/
theorem init_failure_stops_session (s : AppState) (e : String)
    (bs : List BlockInput) :
    main_listener_loop s (InitResult.failure e) bs =
      ({ s with is_listening := false, in_command_window := false },
       [Event.log ("Initialization Error: " ++ e) true,
        Event.buttonText "Start Listening", Event.statusUpdate "Idle"]) := rfl

/-- C7: pressing stop while in the command window clears the in-command
flag and the listening flag; the capture loop then observes the cleared flag
at the top of its next iteration, exits without processing any further
block, and closes the audio stream — all by normal return, no exception. -/
theorem stop_during_command (s : AppState) (bs : List BlockInput)
    (_hc : s.in_command_window = true) :
    (stop_listening s).1.is_listening = false
  ∧ (stop_listening s).1.in_command_window = false
  ∧ (stop_listening s).2 =
      [Event.buttonText "Start Listening", Event.statusUpdate "Idle"]
  ∧ listenerLoop (stop_listening s).1 bs =
      ((stop_listening s).1, [Event.closeStream]) := by
  refine ⟨rfl, rfl, rfl, ?_⟩
  cases bs with
  | nil => rfl
  | cons b rest => simp [listenerLoop, stop_listening]

/-- Witness for C7 at a concrete mid-command state with one pending block. -/
theorem stop_during_command_witness :
    c7s.in_command_window = true ∧
    ((stop_listening c7s).1.is_listening = false
     ∧ (stop_listening c7s).1.in_command_window = false
     ∧ (stop_listening c7s).2 =
        [Event.buttonText "Start Listening", Event.statusUpdate "Idle"]
     ∧ listenerLoop (stop_listening c7s).1 c7bs =
        ((stop_listening c7s).1, [Event.closeStream])) :=
  ⟨rfl, stop_during_command c7s c7bs rfl⟩

/-- C8: per listening session started with a successful initialization,
exactly one recognizer is constructed; and a capture-loop iteration emits
`reset` exactly when it is the wake-word transition — the iteration started
outside the command window with the wake word in the partial transcript —
so `reset` is never invoked while `in_command_window` is true. -/
theorem recognizer_reset_discipline (s0 s : AppState) (b : BlockInput)
    (bs : List BlockInput) :
    (main_listener_loop s0 InitResult.ok bs).2.count Event.initRecognizer = 1
  ∧ (listenerStep s b).2.count Event.reset =
      (if s.in_command_window = false
          ∧ strContains b.partial_text WAKE_WORD = true
       then 1 else 0) := by
  constructor
  · have h0 : (listenerLoop s0 bs).2.count Event.initRecognizer = 0 :=
      List.count_eq_zero.mpr (listenerLoop_no_initRecognizer s0 bs)
    simp [main_listener_loop, List.count_append, List.count_cons, h0]
  · cases hc : s.in_command_window with
    | true =>
        have hr : Event.reset ∉ (listenerStep s b).2 := by
          unfold listenerStep
          simp only [hc]
          split_ifs <;> simp
        simp [List.count_eq_zero.mpr hr, hc]
    | false =>
        by_cases hw : strContains b.partial_text WAKE_WORD = true
        · simp [listenerStep, hc, hw, List.count_cons]
        · have hw' : strContains b.partial_text WAKE_WORD = false := by
            cases hxx : strContains b.partial_text WAKE_WORD
            · rfl
            · exact absurd hxx hw
          simp [listenerStep, hc, hw', List.count_cons]

/-- C9: on a 2xx reply whose JSON `response` field is the empty string,
`process_command` logs nothing and enqueues nothing for speech — the falsy
reply is dropped silently — while a missing `response` field yields the
non-empty fallback text, which is logged (unspoken) and then enqueued for
speech. -/
theorem empty_llm_response_dropped (t : String) :
    process_command t (fun _ => HttpOutcome.ok (some "")) =
      Except.ok [Event.log "Sending query to LLM..." false,
                 Event.statusUpdate "Querying LLM..."]
  ∧ process_command t (fun _ => HttpOutcome.ok none) =
      Except.ok [Event.log "Sending query to LLM..." false,
                 Event.statusUpdate "Querying LLM...",
                 Event.log ("LLM Response: " ++ noResponseFallback) false,
                 Event.speak noResponseFallback] :=
  ⟨rfl, rfl⟩

/-- C10 counterexample: at a concrete empty-final iteration the command
audio buffer does change — the unconditional in-command append of the
current block happens before the final-result branch — so the claim that
only the in-command flag and the status line change, with the buffer left
unchanged, is false. -/
theorem empty_final_frame_counterexample :
    c10xs.in_command_window = true ∧ c10xb.is_final = true ∧
    c10xb.resultText = "" ∧
    (listenerStep c10xs c10xb).1.command_audio_buffer ≠
      c10xs.command_audio_buffer :=
  ⟨rfl, rfl, rfl, by decide⟩

/-- C10 (amended: besides the in-command flag and the status line, the
buffer also gains the current block through the unconditional in-command
append — it is not cleared — and `last_word_time` moves when the block's
partial text is non-empty): an empty final transcript in the command window
returns the loop to the waiting state with no dispatch, no log entry and
nothing spoken; the buffer keeps its contents (plus the appended block)
until the next wake-word detection clears it. -/
theorem empty_final_frame (s : AppState) (b : BlockInput)
    (hc : s.in_command_window = true) (hf : b.is_final = true)
    (he : b.resultText = "") :
    listenerStep s b =
      ({ s with in_command_window := false,
                command_audio_buffer := s.command_audio_buffer ++ [b.data],
                last_word_time := if b.partial_text ≠ "" then b.now
                                  else s.last_word_time },
       [Event.feed b.data, Event.statusUpdate waitingStatus]) := by
  simp [listenerStep, hc, hf, he]

/-- Witness for the amended C10 at a concrete state with a non-empty
buffer. -/
theorem empty_final_frame_witness :
    c10ws.in_command_window = true ∧ c10wb.is_final = true ∧
    c10wb.resultText = "" ∧
    listenerStep c10ws c10wb =
      ({ c10ws with
          in_command_window := false,
          command_audio_buffer := c10ws.command_audio_buffer ++ [c10wb.data],
          last_word_time := if c10wb.partial_text ≠ "" then c10wb.now
                            else c10ws.last_word_time },
       [Event.feed c10wb.data, Event.statusUpdate waitingStatus]) :=
  ⟨rfl, rfl, rfl, empty_final_frame c10ws c10wb rfl rfl rfl⟩

/-- C5: the speech queue is played back in FIFO order — the start events of
the trace list exactly the queued texts in order — and playback of
utterance `i` ends (position `2*i+1`) strictly before playback of any later
utterance `j` starts (position `2*j`), so no two utterances overlap. -/
theorem speech_queue_fifo (q : List String) (i j : Nat)
    (hij : i < j) (hj : j < q.length) :
    (speakerTrace q).filterMap uttStartText = q
  ∧ (speakerTrace q)[2 * i + 1]? =
      some (SpeechEvent.utterEnd i (q.get ⟨i, lt_trans hij hj⟩))
  ∧ (speakerTrace q)[2 * j]? =
      some (SpeechEvent.utterStart j (q.get ⟨j, hj⟩))
  ∧ 2 * i + 1 < 2 * j := by
  refine ⟨speakerWorkerFrom_starts 0 q, ?_, ?_, by omega⟩
  · simpa using (speakerWorkerFrom_getElem 0 q i (lt_trans hij hj)).2
  · simpa using (speakerWorkerFrom_getElem 0 q j hj).1

/-- Witness for C5: enqueuing `"A"` then `"B"` plays `"A"` to completion
before `"B"` starts. -/
theorem speech_queue_fifo_witness :
    (0 : Nat) < 1 ∧ (1 : Nat) < (["A", "B"] : List String).length ∧
    ((speakerTrace ["A", "B"]).filterMap uttStartText = ["A", "B"]
     ∧ (speakerTrace ["A", "B"])[2 * 0 + 1]? = some (SpeechEvent.utterEnd 0 "A")
     ∧ (speakerTrace ["A", "B"])[2 * 1]? = some (SpeechEvent.utterStart 1 "B")
     ∧ 2 * 0 + 1 < 2 * 1) := by
  refine ⟨by decide, by decide, ?_⟩
  have h := speech_queue_fifo ["A", "B"] 0 1 (by decide) (by decide)
  simpa using h
